import Mathlib

/-!
Shallow embedding of the charged-up-properties backend (three Express
variants: `src/unnamed/part_000`, `src/unnamed/part_001`, `src/server.js`).
Multipart body fields are modelled as `Option String` (`none` = the field is
absent, i.e. `undefined` in JavaScript); database columns that can be SQL
null are `Option`-typed as well.  Supabase record-store calls are modelled
as pure operations over a `List` of rows.
-/

namespace ChargedUp

/-- JavaScript truthiness of an optional multipart string field: `undefined`
and the empty string are falsy, every other string is truthy. -/
def jsTruthy (v : Option String) : Bool :=
  match v with
  | none => false
  | some s => s != ""

/-- Extract the string of a truthy field (the `""` default is never the value
actually consumed when guarded by `jsTruthy`). -/
def getS (v : Option String) : String :=
  match v with
  | some s => s
  | none => ""

/-- Whitespace accepted by `JSON.parse` between tokens. -/
def isJsonWs (c : Char) : Bool :=
  c = ' ' || c = Char.ofNat 9 || c = Char.ofNat 10 || c = Char.ofNat 13

def skipWs : List Char → List Char
  | [] => []
  | c :: rest => if isJsonWs c then skipWs rest else c :: rest

/-- The double-quote character. -/
def dq : Char := Char.ofNat 34

/-- The backslash character. -/
def bsl : Char := Char.ofNat 92

/-- Scan a JSON string body up to its closing quote.  Escape sequences are
outside the modelled grammar (none of the URLs handled by the app contain
quotes or backslashes), so a backslash makes the scan fail. -/
def takeStr : List Char → Option (List Char × List Char)
  | [] => none
  | c :: rest =>
    if c = dq then some ([], rest)
    else if c = bsl then none
    else
      match takeStr rest with
      | some (s, r) => some (c :: s, r)
      | none => none

/-- Parse the comma-separated items of a nonempty JSON array of strings,
positioned just before the next string literal; fuelled recursion. -/
def parseItems : Nat → List Char → List String → Option (List String)
  | 0, _, _ => none
  | fuel + 1, cs, acc =>
    match skipWs cs with
    | [] => none
    | c :: rest =>
      if c = dq then
        match takeStr rest with
        | none => none
        | some (s, r) =>
          match skipWs r with
          | [] => none
          | d :: r2 =>
            if d = ']' then
              (if skipWs r2 = [] then some (acc ++ [String.mk s]) else none)
            else if d = ',' then parseItems fuel r2 (acc ++ [String.mk s])
            else none
      else none

/-- `JSON.parse` restricted to arrays of strings: `some` on a well-formed
JSON array of (escape-free) strings consuming the whole input, `none` when
`JSON.parse` would throw.  JSON documents of any other shape are outside the
modelled domain and folded into the failure case. -/
def parseJsonStrArray (s : String) : Option (List String) :=
  match skipWs s.data with
  | [] => none
  | c :: rest =>
    if c = '[' then
      match skipWs rest with
      | [] => none
      | d :: r2 =>
        if d = ']' then (if skipWs r2 = [] then some [] else none)
        else parseItems (s.length + 1) (d :: r2) []
    else none

def takeDigits : List Char → List Nat × List Char
  | [] => ([], [])
  | c :: rest =>
    if c.isDigit then
      let p := takeDigits rest
      ((c.toNat - 48) :: p.1, p.2)
    else ([], c :: rest)

def digitsToNat (ds : List Nat) : Nat :=
  ds.foldl (fun a d => a * 10 + d) 0

/-- Strip one optional leading sign; `true` means negative. -/
def takeSign : List Char → Bool × List Char
  | [] => (false, [])
  | c :: rest =>
    if c = '-' then (true, rest)
    else if c = '+' then (false, rest)
    else (false, c :: rest)

/-- JavaScript `parseInt` on a decimal argument: skip leading whitespace, an
optional sign, then the longest decimal-digit prefix; `none` models `NaN`
(no digits).  Hex prefixes are outside the modelled inputs. -/
def parseIntJS (s : String) : Option Int :=
  let p := takeSign (skipWs s.data)
  match takeDigits p.2 with
  | ([], _) => none
  | (ds, _) => some (if p.1 then -(digitsToNat ds : Int) else (digitsToNat ds : Int))

/-- JavaScript `parseFloat`: optional sign, integer digits, optional
fractional digits; `none` models `NaN`.  Exponent notation is outside the
modelled inputs. -/
def parseFloatJS (s : String) : Option Rat :=
  let p := takeSign (skipWs s.data)
  let ip := takeDigits p.2
  let fp :=
    match ip.2 with
    | c :: r => if c = '.' then (takeDigits r).1 else []
    | [] => []
  if ip.1 = [] ∧ fp = [] then none
  else
    let mag : Rat := (digitsToNat ip.1 : Rat) + (digitsToNat fp : Rat) / ((10 : Rat) ^ fp.length)
    some (if p.1 then -mag else mag)

/-! ### part_000: stored rows and the PUT update object -/

/-- A stored `properties` row as read/written by `src/unnamed/part_000`. -/
structure Property where
  id : Nat
  name : Option String := none
  price : Option Int := none
  status : Option String := none
  address : Option String := none
  beds : Option Int := none
  baths : Option Rat := none
  sqft : Option Int := none
  type : Option String := none
  lot : Option String := none
  basement : Option String := none
  description : Option String := none
  listing_url : Option String := none
  hot_deal : Bool := false
  cover_image : Option String := none
  gallery_images : List String := []
deriving DecidableEq, Repr

/-- The scalar multipart body of a part_000 PUT request (lines 208-224),
plus the optional `galleryOrder` instruction field. -/
structure Body0 where
  name : Option String := none
  price : Option String := none
  status : Option String := none
  address : Option String := none
  beds : Option String := none
  baths : Option String := none
  sqft : Option String := none
  type : Option String := none
  lot : Option String := none
  basement : Option String := none
  description : Option String := none
  listing_url : Option String := none
  hot_deal : Option String := none
  galleryOrder : Option String := none
deriving DecidableEq, Repr

/-- A Supabase `.update(...)` argument: for each column, `none` means the key
is absent (column untouched) and `some v` means the column is written to `v`
(which may itself be SQL null). -/
structure UpdatePatch where
  name : Option (Option String) := none
  price : Option (Option Int) := none
  status : Option (Option String) := none
  address : Option (Option String) := none
  beds : Option (Option Int) := none
  baths : Option (Option Rat) := none
  sqft : Option (Option Int) := none
  type : Option (Option String) := none
  lot : Option (Option String) := none
  basement : Option (Option String) := none
  description : Option (Option String) := none
  listing_url : Option (Option String) := none
  hot_deal : Option Bool := none
  cover_image : Option (Option String) := none
  gallery_images : Option (List String) := none
deriving DecidableEq, Repr

/-- `body.x || null`: an absent or empty field becomes SQL null. -/
def orNull (v : Option String) : Option String :=
  if jsTruthy v then v else none

/-- `body.x ? parseInt(body.x) : null`; a `NaN` parse result serializes to
null as well, so both collapse to `none`. -/
def intField (v : Option String) : Option Int :=
  if jsTruthy v then parseIntJS (getS v) else none

/-- `body.x ? parseFloat(body.x) : null`. -/
def ratField (v : Option String) : Option Rat :=
  if jsTruthy v then parseFloatJS (getS v) else none

/-- `body.hot_deal === "true" || body.hot_deal === true`; multipart fields
arrive as strings, so only the string comparison can fire. -/
def hotDealFlag (v : Option String) : Bool :=
  v == some ("true")

/-- The scalar part of the part_000 PUT update object (lines 211-225): every
scalar column is written, absent/empty body fields becoming null. -/
def update_p0 (body : Body0) : UpdatePatch :=
  { name := some (orNull body.name),
    price := some (intField body.price),
    status := some (orNull body.status),
    address := some (orNull body.address),
    beds := some (intField body.beds),
    baths := some (ratField body.baths),
    sqft := some (intField body.sqft),
    type := some (orNull body.type),
    lot := some (orNull body.lot),
    basement := some (orNull body.basement),
    description := some (orNull body.description),
    listing_url := some (orNull body.listing_url),
    hot_deal := some (hotDealFlag body.hot_deal),
    cover_image := none,
    gallery_images := none }

/-- part_000 gallery merge (lines 232-250): start from the parsed
`galleryOrder` when the field is truthy (falling back to `[]` when
`JSON.parse` throws), then append the newly uploaded URLs in upload order. -/
def finalGallery_p0 (galleryOrder : Option String) (newUrls : List String) : List String :=
  (if jsTruthy galleryOrder then
    match parseJsonStrArray (getS galleryOrder) with
    | some l => l
    | none => []
  else []) ++ newUrls

/-- part_000 lines 252-255: the `gallery_images` column is added to the
update object only when the merged list is nonempty. -/
def galleryPatch_p0 (galleryOrder : Option String) (newUrls : List String) : Option (List String) :=
  let fg := finalGallery_p0 galleryOrder newUrls
  if fg = [] then none else some fg

/-- Read a patched column: a written value, or the stored one. -/
def patched {α : Type} (w : Option α) (old : α) : α :=
  match w with
  | some v => v
  | none => old

/-- The complete part_000 PUT update object: scalars, cover (only when a
cover file was uploaded, line 228-230), gallery (only when nonempty). -/
def putPatch_p0 (body : Body0) (coverUrl : Option String) (newUrls : List String) : UpdatePatch :=
  let u := update_p0 body
  let u2 :=
    match coverUrl with
    | some c => { u with cover_image := some (some c) }
    | none => u
  match galleryPatch_p0 body.galleryOrder newUrls with
  | some fg => { u2 with gallery_images := some fg }
  | none => u2

/-- Supabase `.update(u)`: every key present in the update object overwrites
the corresponding column of the matched row; absent keys leave the column
unchanged. -/
def applyPatch (u : UpdatePatch) (r : Property) : Property :=
  { id := r.id,
    name := patched u.name r.name,
    price := patched u.price r.price,
    status := patched u.status r.status,
    address := patched u.address r.address,
    beds := patched u.beds r.beds,
    baths := patched u.baths r.baths,
    sqft := patched u.sqft r.sqft,
    type := patched u.type r.type,
    lot := patched u.lot r.lot,
    basement := patched u.basement r.basement,
    description := patched u.description r.description,
    listing_url := patched u.listing_url r.listing_url,
    hot_deal := patched u.hot_deal r.hot_deal,
    cover_image := patched u.cover_image r.cover_image,
    gallery_images := patched u.gallery_images r.gallery_images }

/-- The stored gallery after a part_000 PUT touches a row: the merged list
when it was written, the previous value when the write was skipped. -/
def storedGalleryAfter_p0 (stored : List String) (galleryOrder : Option String) (newUrls : List String) : List String :=
  patched (galleryPatch_p0 galleryOrder newUrls) stored

/-- part_000 PUT route outcome (lines 258-268) over a modelled row store:
the update is applied to the row matching `id`; `.single()` over zero
affected rows is a record-store error surfaced as status 500, and no row is
written.  On success the route answers 200. -/
def put_p0 (store : List Property) (id : Nat) (body : Body0) (coverUrl : Option String) (newUrls : List String) : List Property × Nat :=
  if store.any (fun r => r.id == id) then
    (store.map (fun r => if r.id = id then applyPatch (putPatch_p0 body coverUrl newUrls) r else r), 200)
  else (store, 500)

/-! ### part_001: stored rows, payload and PUT flow -/

/-- A stored `properties` row as seen by `src/unnamed/part_001`; scalar
columns are kept at the transport level (the strings the variant sends),
database-side numeric coercion being external to this model.  The
`gallery_images` column may be SQL null (the code guards with `|| []`). -/
structure Row1 where
  id : Nat
  name : Option String := none
  price : Option String := none
  status : Option String := none
  address : Option String := none
  beds : Option String := none
  baths : Option String := none
  sqft : Option String := none
  type : Option String := none
  lot_size : Option String := none
  basement : Option String := none
  description : Option String := none
  cover_image : Option String := none
  gallery_images : Option (List String) := none
deriving DecidableEq, Repr

/-- The multipart body of a part_001 PUT request (lines 161-172 plus the
`removeGallery` field of line 156). -/
structure Body1 where
  name : Option String := none
  price : Option String := none
  status : Option String := none
  address : Option String := none
  beds : Option String := none
  baths : Option String := none
  sqft : Option String := none
  type : Option String := none
  lot : Option String := none
  basement : Option String := none
  description : Option String := none
  removeGallery : Option String := none
deriving DecidableEq, Repr

/-- part_001 gallery computation (lines 143-159): start from the stored
gallery (`existing.gallery_images || []`), append the newly uploaded URLs,
then, when a truthy `removeGallery` field is present, `JSON.parse` it —
without any catch, so a parse failure throws out of the route body — and
drop every URL contained in the parsed list. -/
def galleryUrls_p1 (existingGallery : Option (List String)) (newUrls : List String) (removeGallery : Option String) : Except String (List String) :=
  let withNew := existingGallery.getD [] ++ newUrls
  if jsTruthy removeGallery then
    match parseJsonStrArray (getS removeGallery) with
    | none => Except.error ("SyntaxError")
    | some remove => Except.ok (withNew.filter (fun u => !(remove.contains u)))
  else Except.ok withNew

/-- The part_001 PUT payload (lines 161-175) applied to the stored row.
`JSON.stringify` drops object keys whose value is `undefined`, so a scalar
column is written exactly when the corresponding body field was supplied
(even as the empty string); `cover_image` and `gallery_images` are always
written. -/
def applyPayload_p1 (body : Body1) (coverUrl : Option String) (gallery : List String) (r : Row1) : Row1 :=
  { id := r.id,
    name := patched (body.name.map some) r.name,
    price := patched (body.price.map some) r.price,
    status := patched (body.status.map some) r.status,
    address := patched (body.address.map some) r.address,
    beds := patched (body.beds.map some) r.beds,
    baths := patched (body.baths.map some) r.baths,
    sqft := patched (body.sqft.map some) r.sqft,
    type := patched (body.type.map some) r.type,
    lot_size := patched (body.lot.map some) r.lot_size,
    basement := patched (body.basement.map some) r.basement,
    description := patched (body.description.map some) r.description,
    cover_image := coverUrl,
    gallery_images := some gallery }

/-- part_001 PUT route (lines 126-191) over a modelled row store, returning
the store after the request and the HTTP status.  The initial lookup
(lines 136-140) destructures `data` without checking the error: a missing
id leaves `existing` null, the subsequent `existing.cover_image` access
throws a TypeError, and the route catch answers 500 — before any record
write.  A throwing `JSON.parse(removeGallery)` reaches the same catch. -/
def put_p1 (store : List Row1) (id : Nat) (body : Body1) (coverFile : Option String) (newUrls : List String) : List Row1 × Nat :=
  match store.find? (fun r => r.id == id) with
  | none => (store, 500)
  | some existing =>
    let coverUrl :=
      match coverFile with
      | some u => some u
      | none => existing.cover_image
    match galleryUrls_p1 existing.gallery_images newUrls body.removeGallery with
    | Except.error _ => (store, 500)
    | Except.ok gallery =>
      (store.map (fun r => if r.id = id then applyPayload_p1 body coverUrl gallery r else r), 200)

/-! ### server.js: PUT gallery-instruction parsing -/

/-- server.js lines 125 (`gallery_images ? JSON.parse(gallery_images) : []`):
the client-supplied instruction is parsed with no local catch, so a parse
failure propagates to the route catch and the request fails with 500. -/
def existingGallery_srv (gallery_images : Option String) : Except String (List String) :=
  if jsTruthy gallery_images then
    match parseJsonStrArray (getS gallery_images) with
    | none => Except.error ("SyntaxError")
    | some l => Except.ok l
  else Except.ok []

/-! ### part_000: login and delete routes -/

/-- A login response: HTTP status, the issued token when any, the error
message when any. -/
structure LoginRes where
  status : Nat
  token : Option String
  error : Option String
deriving DecidableEq, Repr

/-- `jwt.sign({role:"admin"}, secret, {expiresIn:"12h"})`, abstracted to a
deterministic token constructor over the signing secret. -/
def signToken (secret : Option String) : String :=
  String.append ("jwt.admin.") (getS secret)

/-- part_000 POST /api/login (lines 74-88): a strict mismatch between the
supplied password and `ADMIN_PASSWORD` answers 401 with no token; on a match
a signed token is returned (status defaults to 200). -/
def login_p0 (adminPassword : Option String) (password : Option String) : LoginRes :=
  if password ≠ adminPassword then
    { status := 401, token := none, error := some ("Invalid password") }
  else
    { status := 200, token := some (signToken adminPassword), error := none }

/-- A delete response: HTTP status and the success flag of the JSON body. -/
structure DeleteRes where
  status : Nat
  success : Bool
deriving DecidableEq, Repr

/-- Supabase `.delete().eq("id", id)`: removes the matching rows; deleting
with no matching row is not an error (the filter simply matches nothing), so
the error flag is always false. -/
def storeDelete (store : List Property) (id : Nat) : List Property × Bool :=
  (store.filter (fun r => r.id != id), false)

/-- part_000 DELETE /api/properties/:id (lines 282-290; part_001 and
server.js are line-for-line equivalent): a store error answers 500,
otherwise `{success: true}` with status 200 — there is no existence check
and no 404 path. -/
def deleteRoute_p0 (store : List Property) (id : Nat) : List Property × DeleteRes :=
  let d := storeDelete store id
  if d.2 then (d.1, { status := 500, success := false })
  else (d.1, { status := 200, success := true })

/-! ### Shared lemmas -/

/-- The scalar columns of the complete part_000 PUT update object are those
of its scalar part: the later cover/gallery assignments do not touch them. -/
theorem putPatch_p0_scalars (body : Body0) (cover : Option String) (newUrls : List String) :
    (putPatch_p0 body cover newUrls).name = some (orNull body.name) ∧
    (putPatch_p0 body cover newUrls).price = some (intField body.price) ∧
    (putPatch_p0 body cover newUrls).status = some (orNull body.status) ∧
    (putPatch_p0 body cover newUrls).address = some (orNull body.address) ∧
    (putPatch_p0 body cover newUrls).beds = some (intField body.beds) := by
  unfold putPatch_p0
  cases cover <;> cases galleryPatch_p0 body.galleryOrder newUrls <;>
    simp [update_p0]

/-- The gallery column of the part_000 PUT update object is written exactly
when the merged list is nonempty. -/
theorem putPatch_p0_gallery (body : Body0) (cover : Option String) (newUrls : List String) :
    (putPatch_p0 body cover newUrls).gallery_images = galleryPatch_p0 body.galleryOrder newUrls := by
  unfold putPatch_p0
  cases cover <;> cases galleryPatch_p0 body.galleryOrder newUrls <;>
    simp [update_p0]

/-- A truthy instruction field that parses reduces the part_000 merge to the
parsed list followed by the new URLs. -/
theorem finalGallery_p0_parsed (s : String) (l newUrls : List String)
    (hs : s ≠ "") (hp : parseJsonStrArray s = some l) :
    finalGallery_p0 (some s) newUrls = l ++ newUrls := by
  simp [finalGallery_p0, jsTruthy, getS, hs, hp]

/-- A truthy instruction field that fails to parse reduces the part_000
merge to the new URLs alone. -/
theorem finalGallery_p0_malformed (s : String) (newUrls : List String)
    (hs : s ≠ "") (hp : parseJsonStrArray s = none) :
    finalGallery_p0 (some s) newUrls = newUrls := by
  simp [finalGallery_p0, jsTruthy, getS, hs, hp]

/-- A sample stored row used by concrete counterexamples. -/
def sampleProp : Property :=
  { id := 1,
    name := some ("Lakeview House"),
    price := some 250000,
    status := some ("active"),
    address := some ("12 Lake Rd"),
    beds := some 3,
    gallery_images := ["u"] }

/-! ### C1 -/

/-- C1: counterexample — a part_000 update request supplying no scalar
fields writes null over the stored name and price instead of retaining the
stored values. -/
theorem c1_absent_fields_nulled_cex :
    (applyPatch (putPatch_p0 {} none []) sampleProp).price = none ∧
    sampleProp.price = some 250000 ∧
    (applyPatch (putPatch_p0 {} none []) sampleProp).name = none ∧
    sampleProp.name = some ("Lakeview House") := by decide

/-- C1 (amended): in part_000 every scalar field absent from the request is
written as SQL null in the resulting record, while in part_001 an absent
field is dropped from the payload (undefined keys are not serialized) and
the stored value is retained. -/
theorem c1_amended_partial_update (body : Body0) (r : Property)
    (b1 : Body1) (r1 : Row1) (cover cover1 : Option String) (newUrls g : List String)
    (hn : body.name = none) (hp : body.price = none) (hs : body.status = none)
    (ha : body.address = none) (hb : body.beds = none)
    (hn1 : b1.name = none) (hp1 : b1.price = none) (hs1 : b1.status = none)
    (ha1 : b1.address = none) (hb1 : b1.beds = none) :
    (applyPatch (putPatch_p0 body cover newUrls) r).name = none ∧
    (applyPatch (putPatch_p0 body cover newUrls) r).price = none ∧
    (applyPatch (putPatch_p0 body cover newUrls) r).status = none ∧
    (applyPatch (putPatch_p0 body cover newUrls) r).address = none ∧
    (applyPatch (putPatch_p0 body cover newUrls) r).beds = none ∧
    (applyPayload_p1 b1 cover1 g r1).name = r1.name ∧
    (applyPayload_p1 b1 cover1 g r1).price = r1.price ∧
    (applyPayload_p1 b1 cover1 g r1).status = r1.status ∧
    (applyPayload_p1 b1 cover1 g r1).address = r1.address ∧
    (applyPayload_p1 b1 cover1 g r1).beds = r1.beds := by
  obtain ⟨e1, e2, e3, e4, e5⟩ := putPatch_p0_scalars body cover newUrls
  refine ⟨?_, ?_, ?_, ?_, ?_, ?_, ?_, ?_, ?_, ?_⟩ <;>
    simp [applyPatch, applyPayload_p1, patched, e1, e2, e3, e4, e5,
      orNull, intField, jsTruthy, hn, hp, hs, ha, hb, hn1, hp1, hs1, ha1, hb1]

/-- C1 witness: a concrete empty-body update against `sampleProp` and a
one-row part_001 store. -/
theorem c1_amended_partial_update_witness :
    (applyPatch (putPatch_p0 {} none []) sampleProp).name = none ∧
    (applyPatch (putPatch_p0 {} none []) sampleProp).price = none ∧
    (applyPatch (putPatch_p0 {} none []) sampleProp).status = none ∧
    (applyPatch (putPatch_p0 {} none []) sampleProp).address = none ∧
    (applyPatch (putPatch_p0 {} none []) sampleProp).beds = none ∧
    (applyPayload_p1 {} none [] { id := 1, name := some ("A"), price := some ("9") }).name = some ("A") ∧
    (applyPayload_p1 {} none [] { id := 1, name := some ("A"), price := some ("9") }).price = some ("9") ∧
    (applyPayload_p1 {} none [] { id := 1, name := some ("A"), price := some ("9") }).status = none ∧
    (applyPayload_p1 {} none [] { id := 1, name := some ("A"), price := some ("9") }).address = none ∧
    (applyPayload_p1 {} none [] { id := 1, name := some ("A"), price := some ("9") }).beds = none :=
  c1_amended_partial_update {} sampleProp {} { id := 1, name := some ("A"), price := some ("9") }
    none none [] [] rfl rfl rfl rfl rfl rfl rfl rfl rfl rfl

/-! ### C2 -/

/-- C2: counterexample — a part_000 update uploading one new gallery file
with no ordering instruction stores just the new URL: the stored baseline is
dropped, not kept in front of the appended upload. -/
theorem c2_baseline_dropped_cex :
    storedGalleryAfter_p0 ["u"] none ["v"] = ["v"] ∧
    (["v"] : List String) ≠ ["u"] ++ ["v"] := by decide

/-- C2 (amended): with no ordering instruction and no removal list, part_001
appends the new URLs to the stored baseline in upload order, duplicate-free
whenever baseline and new URLs are duplicate-free and disjoint; part_000,
however, drops the baseline: the stored gallery becomes exactly the new
URLs when at least one file was uploaded, and stays unchanged when none
was. -/
theorem c2_amended_no_order_append (base newUrls stored : List String)
    (hb : base.Nodup) (hn : newUrls.Nodup) (hd : ∀ u ∈ base, u ∉ newUrls)
    (hne : newUrls ≠ []) :
    galleryUrls_p1 (some base) newUrls none = Except.ok (base ++ newUrls) ∧
    (base ++ newUrls).Nodup ∧
    storedGalleryAfter_p0 stored none newUrls = newUrls ∧
    storedGalleryAfter_p0 stored none [] = stored := by
  refine ⟨rfl, List.Nodup.append hb hn hd, ?_, rfl⟩
  simp [storedGalleryAfter_p0, galleryPatch_p0, finalGallery_p0, jsTruthy, hne, patched]

/-- C2 witness: baseline `["u"]`, one new URL `"v"`. -/
theorem c2_amended_no_order_append_witness :
    galleryUrls_p1 (some ["u"]) ["v"] none = Except.ok (["u"] ++ ["v"]) ∧
    (["u"] ++ ["v"] : List String).Nodup ∧
    storedGalleryAfter_p0 ["u"] none ["v"] = ["v"] ∧
    storedGalleryAfter_p0 ["u"] none [] = ["u"] :=
  c2_amended_no_order_append ["u"] ["v"] ["u"] (by decide) (by decide) (by decide) (by decide)

/-! ### C3 -/

/-- C3: a valid ordering instruction replaces the baseline in part_000 — the
merged gallery is exactly the instruction's entries in order followed by
this request's newly ingested URLs — so a baseline URL omitted from the
instruction is absent from the result (new upload keys are fresh, hence the
baseline is disjoint from the new URLs). -/
theorem c3_order_replaces_baseline (s : String) (l baseline newUrls : List String)
    (hs : s ≠ "") (hp : parseJsonStrArray s = some l)
    (hfresh : ∀ u ∈ baseline, u ∉ newUrls) :
    finalGallery_p0 (some s) newUrls = l ++ newUrls ∧
    ∀ u ∈ baseline, u ∉ l → u ∉ finalGallery_p0 (some s) newUrls := by
  have h1 := finalGallery_p0_parsed s l newUrls hs hp
  refine ⟨h1, ?_⟩
  intro u hu hnl
  rw [h1, List.mem_append]
  rintro (h | h)
  · exact hnl h
  · exact hfresh u hu h

/-- C3 witness: instruction `["c"]` over baseline `["b", "c"]` with one new
URL `"d"`: the result is `["c", "d"]` and the dropped `"b"` is gone. -/
theorem c3_order_replaces_baseline_witness :
    finalGallery_p0 (some ("[\"c\"]")) ["d"] = ["c"] ++ ["d"] ∧
    ∀ u ∈ (["b", "c"] : List String), u ∉ (["c"] : List String) → u ∉ finalGallery_p0 (some ("[\"c\"]")) ["d"] :=
  c3_order_replaces_baseline ("[\"c\"]") ["c"] ["b", "c"] ["d"]
    (by decide) (by decide) (by decide)

/-! ### C4 -/

/-- C4: counterexample — part_000 treats an unparseable `galleryOrder` as an
empty list, not as the stored baseline: with stored gallery `["u"]` and one
new URL the stored result is `["v"]`, not baseline ++ new. -/
theorem c4_malformed_drops_baseline_cex :
    parseJsonStrArray ("oops") = none ∧
    storedGalleryAfter_p0 ["u"] (some ("oops")) ["v"] = ["v"] ∧
    (["v"] : List String) ≠ ["u"] ++ ["v"] := by decide

/-- C4 (amended): an unparseable instruction is non-fatal in part_000 but
falls back to the empty list — the merge yields just the new URLs, and with
no new URL the write is skipped so the stored gallery is retained — while
in server.js the instruction is parsed with no local catch, so an
unparseable `gallery_images` field makes the request fail. -/
theorem c4_amended_malformed (s : String) (stored newUrls : List String)
    (hs : s ≠ "") (hp : parseJsonStrArray s = none) :
    finalGallery_p0 (some s) newUrls = newUrls ∧
    storedGalleryAfter_p0 stored (some s) [] = stored ∧
    existingGallery_srv (some s) = Except.error ("SyntaxError") := by
  refine ⟨finalGallery_p0_malformed s newUrls hs hp, ?_, ?_⟩
  · simp [storedGalleryAfter_p0, galleryPatch_p0, finalGallery_p0_malformed s [] hs hp, patched]
  · simp [existingGallery_srv, jsTruthy, getS, hs, hp]

/-- C4 witness: the unparseable instruction `"oops"`. -/
theorem c4_amended_malformed_witness :
    finalGallery_p0 (some ("oops")) ["v"] = ["v"] ∧
    storedGalleryAfter_p0 ["u"] (some ("oops")) [] = ["u"] ∧
    existingGallery_srv (some ("oops")) = Except.error ("SyntaxError") :=
  c4_amended_malformed ("oops") ["u"] ["v"] (by decide) (by decide)

/-! ### C5 -/

/-- C5: counterexample — when the ordering instruction and a newly ingested
URL overlap, part_000 keeps both occurrences: no de-duplication happens and
the stored list has a duplicate after a single update. -/
theorem c5_no_dedup_cex :
    finalGallery_p0 (some ("[\"a\"]")) ["a"] = ["a", "a"] ∧
    ¬ (finalGallery_p0 (some ("[\"a\"]")) ["a"]).Nodup := by decide

/-- C5 (amended): reconciliation performs no de-duplication — overlapping
entries are all kept — so the final list is duplicate-free exactly when its
inputs are: a duplicate-free instruction (part_000) or baseline (part_001)
together with duplicate-free new URLs and the disjointness that fresh upload
keys provide yield a duplicate-free merged list. -/
theorem c5_amended_nodup (s : String) (l base newUrls : List String)
    (hs : s ≠ "") (hp : parseJsonStrArray s = some l)
    (hl : l.Nodup) (hb : base.Nodup) (hn : newUrls.Nodup)
    (hdl : ∀ u ∈ l, u ∉ newUrls) (hdb : ∀ u ∈ base, u ∉ newUrls) :
    (finalGallery_p0 (some s) newUrls).Nodup ∧
    ∀ g, galleryUrls_p1 (some base) newUrls none = Except.ok g → g.Nodup := by
  constructor
  · rw [finalGallery_p0_parsed s l newUrls hs hp]
    exact List.Nodup.append hl hn hdl
  · intro g hg
    have hge : base ++ newUrls = g := by
      simpa [galleryUrls_p1, jsTruthy] using hg
    rw [← hge]
    exact List.Nodup.append hb hn hdb

/-- C5 witness: instruction `["a"]`, baseline `["a"]`, one fresh new URL. -/
theorem c5_amended_nodup_witness :
    (finalGallery_p0 (some ("[\"a\"]")) ["b"]).Nodup ∧
    ∀ g, galleryUrls_p1 (some ["a"]) ["b"] none = Except.ok g → g.Nodup :=
  c5_amended_nodup ("[\"a\"]") ["a"] ["a"] ["b"]
    (by decide) (by decide) (by decide) (by decide) (by decide) (by decide) (by decide)

/-! ### C6 -/

/-- C6: counterexample — an update whose reconciled gallery is empty (an
empty, valid ordering instruction and no uploads) leaves the stored gallery
at its previous value: part_000 skips the write, the empty list is never
stored. -/
theorem c6_empty_not_written_cex :
    finalGallery_p0 (some ("[]")) [] = [] ∧
    storedGalleryAfter_p0 ["u"] (some ("[]")) [] = ["u"] ∧
    (["u"] : List String) ≠ [] := by decide

/-- C6 (amended): whenever the merged part_000 gallery is empty, the update
object carries no `gallery_images` key and the stored gallery keeps its
previous value — the empty state cannot be written through this route;
part_001, by contrast, always writes the computed list, the empty list
included. -/
theorem c6_amended_empty_skipped (stored newUrls : List String) (body : Body0)
    (cover : Option String) (b1 : Body1) (c1 : Option String) (r1 : Row1)
    (h : finalGallery_p0 body.galleryOrder newUrls = []) :
    (putPatch_p0 body cover newUrls).gallery_images = none ∧
    storedGalleryAfter_p0 stored body.galleryOrder newUrls = stored ∧
    (applyPayload_p1 b1 c1 [] r1).gallery_images = some [] := by
  have hg : galleryPatch_p0 body.galleryOrder newUrls = none := by
    simp [galleryPatch_p0, h]
  refine ⟨?_, ?_, rfl⟩
  · rw [putPatch_p0_gallery]
    exact hg
  · simp [storedGalleryAfter_p0, hg, patched]

/-- C6 witness: the empty valid instruction `[]` with no uploads over a
stored gallery `["u"]`. -/
theorem c6_amended_empty_skipped_witness :
    (putPatch_p0 { galleryOrder := some ("[]") } none []).gallery_images = none ∧
    storedGalleryAfter_p0 ["u"] (some ("[]")) [] = ["u"] ∧
    (applyPayload_p1 {} none [] { id := 1 }).gallery_images = some [] :=
  c6_amended_empty_skipped ["u"] [] { galleryOrder := some ("[]") } none {} none { id := 1 }
    (by decide)

/-! ### C7 -/

/-- C7: counterexample — a part_001 update whose id matches no stored row
answers 500 (the unchecked null lookup makes the route catch fire), not
404, and the store is untouched. -/
theorem c7_missing_id_500_cex :
    put_p1 [] 7 {} none [] = ([], 500) ∧ (500 : Nat) ≠ 404 := by decide

/-- C7 (amended): an update whose id resolves to no stored record fails with
status 500 in both variants — part_001 dereferences the null result of its
unchecked lookup, part_000 gets a record-store error from `.single()` over
zero affected rows — never with 404/NotFoundError, and no record write
occurs. -/
theorem c7_amended_missing_id (store1 : List Row1) (store0 : List Property) (id : Nat)
    (b1 : Body1) (b0 : Body0) (cover : Option String) (newUrls : List String)
    (h1 : ∀ r ∈ store1, r.id ≠ id) (h0 : ∀ r ∈ store0, r.id ≠ id) :
    put_p1 store1 id b1 cover newUrls = (store1, 500) ∧
    put_p0 store0 id b0 cover newUrls = (store0, 500) := by
  constructor
  · have hfind : store1.find? (fun r => r.id == id) = none := by
      rw [List.find?_eq_none]
      intro r hr
      simpa using h1 r hr
    simp [put_p1, hfind]
  · have hany : store0.any (fun r => r.id == id) = false := by
      simp only [List.any_eq_false]
      intro r hr
      simpa using h0 r hr
    simp [put_p0, hany]

/-- C7 witness: id 1 against a part_001 store holding only id 2 and a
part_000 store holding only id 3. -/
theorem c7_amended_missing_id_witness :
    put_p1 [{ id := 2 }] 1 {} none [] = ([{ id := 2 }], 500) ∧
    put_p0 [{ id := 3 }] 1 {} none [] = ([{ id := 3 }], 500) :=
  c7_amended_missing_id [{ id := 2 }] [{ id := 3 }] 1 {} {} none []
    (by decide) (by decide)

/-! ### C8 -/

/-- C8: a login whose supplied password differs from the configured admin
password is answered 401 with no token; a matching password is answered
with a signed token. -/
theorem c8_login_password_gate (admin supplied : Option String) :
    (supplied ≠ admin →
      login_p0 admin supplied = { status := 401, token := none, error := some ("Invalid password") }) ∧
    (supplied = admin →
      (login_p0 admin supplied).status = 200 ∧
      (login_p0 admin supplied).token = some (signToken admin)) := by
  constructor
  · intro h
    simp [login_p0, h]
  · intro h
    simp [login_p0, h]

/-- C8 witness: the wrong password `"wrong"` against secret `"hunter2"`,
then the matching one. -/
theorem c8_login_password_gate_witness :
    login_p0 (some ("hunter2")) (some ("wrong")) = { status := 401, token := none, error := some ("Invalid password") } ∧
    (login_p0 (some ("hunter2")) (some ("hunter2"))).status = 200 ∧
    (login_p0 (some ("hunter2")) (some ("hunter2"))).token = some (signToken (some ("hunter2"))) :=
  ⟨(c8_login_password_gate (some ("hunter2")) (some ("wrong"))).1 (by decide),
    (c8_login_password_gate (some ("hunter2")) (some ("hunter2"))).2 rfl⟩

/-! ### C9 -/

/-- C9: the delete route answers `{success: true}` with status 200 for every
id, a non-existent one included — the store delete of a missing id matches
no row and is not an error — and never reports 404/NotFoundError. -/
theorem c9_delete_always_success (store : List Property) (id : Nat) :
    (deleteRoute_p0 store id).2 = { status := 200, success := true } ∧
    (deleteRoute_p0 store id).2.status ≠ 404 := by
  constructor <;> simp [deleteRoute_p0, storeDelete]

/-! ### C10 -/

/-- C10: part_001 applies the removeGallery filter after appending the newly
uploaded URLs, so a newly ingested URL named in the removal list is itself
excluded from the final gallery: removal is not restricted to baseline
URLs. -/
theorem c10_remove_after_append (existingGallery : Option (List String))
    (newUrls : List String) (s : String) (remove : List String) (u : String)
    (hs : s ≠ "") (hp : parseJsonStrArray s = some remove)
    (hu : u ∈ newUrls) (hr : u ∈ remove) :
    galleryUrls_p1 existingGallery newUrls (some s) =
      Except.ok ((existingGallery.getD [] ++ newUrls).filter (fun x => !(remove.contains x))) ∧
    ∀ g, galleryUrls_p1 existingGallery newUrls (some s) = Except.ok g → u ∉ g := by
  have heq : galleryUrls_p1 existingGallery newUrls (some s) =
      Except.ok ((existingGallery.getD [] ++ newUrls).filter (fun x => !(remove.contains x))) := by
    simp [galleryUrls_p1, jsTruthy, getS, hs, hp]
  refine ⟨heq, ?_⟩
  intro g hg
  rw [heq] at hg
  have hge : (existingGallery.getD [] ++ newUrls).filter (fun x => !(remove.contains x)) = g :=
    Except.ok.inj hg
  rw [← hge]
  intro hmem
  have := (List.mem_filter.mp hmem).2
  simp [hr] at this

/-- C10 witness: the URL `"v"` is uploaded in the request and also named in
the removal list, and is absent from the final gallery `["u"]`. -/
theorem c10_remove_after_append_witness :
    galleryUrls_p1 (some ["u"]) ["v"] (some ("[\"v\"]")) = Except.ok ["u"] ∧
    ("v" : String) ∉ (["u"] : List String) := by
  have h := c10_remove_after_append (some ["u"]) ["v"] ("[\"v\"]") ["v"] ("v")
    (by decide) (by decide) (by decide) (by decide)
  exact ⟨h.1, h.2 ["u"] h.1⟩

end ChargedUp
